import Mathlib

/-!
# Verification of the interview-platform code-execution boundary

Shallow embedding of the candidate-facing client (`src/lib/api-client.ts`),
the interview hook (`src/hooks/use-interview.ts`) and the test terminal
(`src/components/interview/test-terminal.tsx`).  Where a claim concerns the
sandbox backend, whose code is not in the repository snapshot (only its
documentation and its frontend callers are), the definitions are modelled
from the specification's boundary contract and say so in their doc comment.
-/

namespace VibeCode

/-! ## Data model of `src/lib/api-client.ts` -/

/-- The union type `ProgrammingLanguage` of `src/lib/api-client.ts:3`,
embedded as the list of its allowed string values. -/
def programmingLanguages : List String :=
  ["python", "javascript", "cpp"]

/-- `TestResult` of `src/lib/api-client.ts:48-56`.  `error?` is optional;
`execution_time_ms` is a number. -/
structure TestResult where
  test_number : Nat
  passed : Bool
  input : String
  expected : String
  actual : String
  error : Option String
  execution_time_ms : Nat
deriving DecidableEq, Repr

/-- `ExecutionResult` of `src/lib/api-client.ts:58-65`: a flat record with a
success flag, optional output/error strings and an optional flat list of
per-test results. -/
structure ExecutionResult where
  success : Bool
  output : Option String
  error : Option String
  execution_time_ms : Nat
  memory_used_mb : Nat
  test_results : Option (List TestResult)
deriving DecidableEq, Repr

/-! ## Spec-modelled sandbox boundary types

The test cases travelling to the sandbox's run endpoint
(`POST run`, spec section 6; `docs/runner-architecture.md`). -/

/-- One test case as sent to the run endpoint: `{id, input, expected_output}`. -/
structure TestCase where
  id : String
  input : String
  expected_output : String
deriving DecidableEq, Repr

/-- The visible/hidden test split of the run-endpoint request body. -/
structure TestSet where
  visible : List TestCase
  hidden : List TestCase
deriving DecidableEq, Repr

/-- One rendered field of a JSON request or response body: the key is the
`String` component of the pair, the payload one of these variants. -/
inductive JField where
  | s (v : String)
  | n (v : Nat)
  | b (v : Bool)
  | nullF
  | resultsF (v : List TestResult)
  | testsF (v : TestSet)
deriving DecidableEq, Repr

/-- JSON encoding of `ExecutionResult` following the interface of
`src/lib/api-client.ts:58-65`: the optional fields `output`, `error` and
`test_results` are present only when carried, the rest always. -/
def encodeExecutionResult (r : ExecutionResult) : List (String × JField) :=
  [("success", JField.b r.success)]
    ++ (match r.output with | some v => [("output", JField.s v)] | none => [])
    ++ (match r.error with | some v => [("error", JField.s v)] | none => [])
    ++ [("execution_time_ms", JField.n r.execution_time_ms),
        ("memory_used_mb", JField.n r.memory_used_mb)]
    ++ (match r.test_results with
        | some v => [("test_results", JField.resultsF v)]
        | none => [])

/-- The request body sent by `apiClient.runTests`
(`src/lib/api-client.ts:146`): `{ interview_id, task_id, code, language }`. -/
def runTestsRequestBody (interview_id task_id code language : String) :
    List (String × JField) :=
  [("interview_id", JField.s interview_id),
   ("task_id", JField.s task_id),
   ("code", JField.s code),
   ("language", JField.s language)]

/-- An HTTP response as seen by the api client: the `ok` flag, the raw body
text, and the decoded payload that `res.json()` would produce. -/
structure HttpResponse where
  ok : Bool
  body : String
  payload : ExecutionResult
deriving DecidableEq, Repr

/-- `apiClient.runTests` response handling (`src/lib/api-client.ts:148-149`):
`if (!res.ok) throw new Error("Failed to run tests")` else `res.json()`. -/
def apiRunTests (resp : HttpResponse) : Except String ExecutionResult :=
  if resp.ok then Except.ok resp.payload
  else Except.error "Failed to run tests"

/-- `getDefaultCode` of `src/hooks/use-interview.ts:255-266`: a switch on the
language string with a default branch returning the empty string. -/
def getDefaultCode (language : String) : String :=
  if language = "python" then
    "# Напишите ваше решение здесь\n\ndef solution():\n    pass\n"
  else if language = "javascript" then
    "// Напишите ваше решение здесь\n\nfunction solution() \x7b\n  \n\x7d\n"
  else if language = "cpp" then
    "// Напишите ваше решение здесь\n\n#include <iostream>\nusing namespace std;\n\nint main() \x7b\n    \n    return 0;\n\x7d\n"
  else
    ""

/-! ## Test terminal (`src/components/interview/test-terminal.tsx`) -/

/-- One line of the terminal text built by the `TestTerminal` effect
(`src/components/interview/test-terminal.tsx:27-61`); each constructor is one
`terminalOutput +=` site, carrying the data interpolated into that line. -/
inductive TermLine where
  | errorBanner (msg : String)
  | rawOutput (text : String)
  | testsHeader
  | passedLine (testNumber : Nat)
  | failedLine (testNumber : Nat)
  | inputLine (testNumber : Nat) (v : String)
  | expectedLine (testNumber : Nat) (v : String)
  | actualLine (testNumber : Nat) (v : String)
  | errorLine (testNumber : Nat) (v : String)
  | timeLine (testNumber : Nat) (ms : Nat)
  | overallLine (success : Bool)
deriving DecidableEq, Repr

/-- Truthiness of an optional string value in JS: present and non-empty. -/
def strTruthy (o : Option String) : Bool :=
  match o with
  | some v => v ≠ ""
  | none => false

/-- The terminal lines contributed by one test in the `forEach` loop of
`src/components/interview/test-terminal.tsx:41-54`: a PASSED line, or a
FAILED line followed by the detail lines whose field is truthy; a time line
whenever `execution_time_ms` is truthy (non-zero). -/
def renderTest (t : TestResult) : List TermLine :=
  (if t.passed then
     [TermLine.passedLine t.test_number]
   else
     [TermLine.failedLine t.test_number]
       ++ (if t.input ≠ "" then [TermLine.inputLine t.test_number t.input] else [])
       ++ (if t.expected ≠ "" then [TermLine.expectedLine t.test_number t.expected] else [])
       ++ (if t.actual ≠ "" then [TermLine.actualLine t.test_number t.actual] else [])
       ++ (match t.error with
           | some e => if e ≠ "" then [TermLine.errorLine t.test_number e] else []
           | none => []))
    ++ (if t.execution_time_ms ≠ 0 then
          [TermLine.timeLine t.test_number t.execution_time_ms]
        else [])

/-- The full terminal text built from a non-null execution result
(`src/components/interview/test-terminal.tsx:29-61`): error banner and raw
output when truthy, the test-results block when the list is non-empty, and
the overall line (`success` is a required boolean, so its
`!== undefined` guard always holds). -/
def buildTerminalOutput (r : ExecutionResult) : List TermLine :=
  (match r.error with
   | some e => if e ≠ "" then [TermLine.errorBanner e] else []
   | none => [])
    ++ (match r.output with
        | some o => if o ≠ "" then [TermLine.rawOutput o] else []
        | none => [])
    ++ (match r.test_results with
        | some ts =>
            if 0 < ts.length then TermLine.testsHeader :: (ts.map renderTest).flatten
            else []
        | none => [])
    ++ [TermLine.overallLine r.success]

/-- The condition rendering the Stop control in the terminal header
(`src/components/interview/test-terminal.tsx:74`):
`isRunning && onStop && (<Button ...>)`.  The optional `onStop` callback is
modelled by presence (`Option Unit`). -/
def stopControlShown (isRunning : Bool) (onStop : Option Unit) : Bool :=
  isRunning && onStop.isSome

/-! ## Interview hook (`src/hooks/use-interview.ts`) -/

/-- `InterviewState` of `src/lib/api-client.ts:26-36`. -/
structure InterviewState where
  interview_id : String
  status : String
  current_task : Nat
  total_tasks : Nat
  direction : String
  language : String
  task_language : String
  difficulty : String
  started_at : String
deriving DecidableEq, Repr

/-- `Task` of `src/lib/api-client.ts:9-19`; `starter_code?` is an optional
record from language strings to code strings, embedded as an association
list. -/
structure Task where
  id : String
  title : String
  description : String
  task_type : String
  difficulty : String
  time_limit_minutes : Nat
  starter_code : Option (List (String × String))
deriving DecidableEq, Repr

/-- `LoadingAction` of `src/hooks/use-interview.ts:13` (without the `null`
alternative, which is `Option.none` of this type). -/
inductive LoadingAction where
  | start | submit | tests | hint | nextTask | finish
deriving DecidableEq, Repr

/-- The loading slice of the hook's state: `isLoading` and `loadingAction`
(`src/hooks/use-interview.ts:21,24`). -/
structure LoadState where
  isLoading : Bool
  loadingAction : Option LoadingAction
deriving DecidableEq, Repr

/-- `runTests` of `src/hooks/use-interview.ts:95-112`, with the outcome of
the awaited `apiClient.runTests` call passed in explicitly: early null
return when interview or task is missing; otherwise set loading, return the
api result or catch to null, and reset loading in `finally`. -/
def hookRunTests (interview : Option InterviewState) (task : Option Task)
    (api : Except String ExecutionResult) (st : LoadState) :
    Option ExecutionResult × LoadState :=
  match interview, task with
  | some _, some _ =>
      match api with
      | Except.ok r => (some r, ⟨false, none⟩)
      | Except.error _ => (none, ⟨false, none⟩)
  | _, _ => (none, st)

/-- The hook state touched by `nextTask`
(`src/hooks/use-interview.ts:16-24`). -/
structure HookState where
  interview : Option InterviewState
  currentTask : Option Task
  taskNumber : Nat
  code : String
  taskScores : List Nat
  load : LoadState
deriving DecidableEq, Repr

/-- The initial hook state (`src/hooks/use-interview.ts:16-24`):
`useState(null)`, `useState(1)`, `useState("")`, `useState([])`,
`useState(false)`, `useState(null)`. -/
def initialHookState : HookState :=
  ⟨none, none, 1, "", [], ⟨false, none⟩⟩

/-- The validity check `task && task.id && task.title` applied to a received
task (`src/hooks/use-interview.ts:159`); on a decoded `Task` value the string
fields are truthy when non-empty. -/
def taskIsValid (t : Task) : Bool :=
  t.id ≠ "" && t.title ≠ ""

/-- `task.starter_code?.[interview.language] || getDefaultCode(...)`
(`src/hooks/use-interview.ts:163`): the starter code for the interview's
language when present and truthy, the default otherwise. -/
def starterOrDefault (t : Task) (language : String) : String :=
  match t.starter_code with
  | some m =>
      match m.lookup language with
      | some c => if c ≠ "" then c else getDefaultCode language
      | none => getDefaultCode language
  | none => getDefaultCode language

/-- `nextTask` of `src/hooks/use-interview.ts:137-183`, with the outcome of
`apiClient.generateTask` passed in explicitly.  Early null return when the
interview is missing or `taskNumber + 1 > total_tasks`; on a valid received
task the task, counter and code are updated; on an invalid task or a thrown
error only the code is reset to the default; loading is reset in
`finally`. -/
def hookNextTask (st : HookState) (api : Except String Task) :
    Option Task × HookState :=
  match st.interview with
  | none => (none, st)
  | some itv =>
      if st.taskNumber + 1 > itv.total_tasks then (none, st)
      else
        match api with
        | Except.ok task =>
            if taskIsValid task then
              (some task,
               { st with
                   currentTask := some task
                   taskNumber := st.taskNumber + 1
                   code := starterOrDefault task itv.language
                   load := ⟨false, none⟩ })
            else
              (none, { st with code := getDefaultCode itv.language, load := ⟨false, none⟩ })
        | Except.error _ =>
            (none, { st with code := getDefaultCode itv.language, load := ⟨false, none⟩ })

/-! ## Spec-modelled sandbox core

The code of the execution sandbox (test runner, execution engine, fallback
selector) is not part of the repository snapshot — only its documentation
(`docs/runner-architecture.md`) and its callers are.  The definitions below
are therefore modelled from the specification's boundary contract. -/

/-- Modelled from the spec: `ResourceLimits` accompanying every execution
request — the `timeout_seconds` / `memory_limit_mb` pair of the `POST run`
request body (spec sections 3 and 6); the sandbox's own code is missing
from the repository. -/
structure ResourceLimits where
  timeout_seconds : Nat
  memory_limit_mb : Nat
deriving DecidableEq, Repr

/-- Modelled from the spec: the `POST run` request body
`{ language, code, tests, timeout_seconds, memory_limit_mb }` (spec
section 6); the backend code issuing it is missing from the repository.
The limits are a mandatory component of the value. -/
structure RunRequest where
  language : String
  code : String
  tests : TestSet
  limits : ResourceLimits
deriving DecidableEq, Repr

/-- Field rendering of a `RunRequest` as the `POST run` JSON body. -/
def encodeRunRequest (r : RunRequest) : List (String × JField) :=
  [("language", JField.s r.language),
   ("code", JField.s r.code),
   ("tests", JField.testsF r.tests),
   ("timeout_seconds", JField.n r.limits.timeout_seconds),
   ("memory_limit_mb", JField.n r.limits.memory_limit_mb)]

/-- Modelled from the spec: the full per-test-case record retained
internally by the test runner (spec section 3, `TestCaseResult`); the test
runner's code is missing from the repository. -/
structure TestCaseExec where
  id : String
  passed : Bool
  input : String
  expected_output : String
  actual_output : String
  error : Option String
  execution_time_ms : Nat
deriving DecidableEq, Repr

/-- Modelled from the spec: the candidate-facing rendering of one visible
test result (spec section 6): full detail. -/
def encodeVisibleResult (t : TestCaseExec) : List (String × JField) :=
  [("id", JField.s t.id),
   ("status", JField.s (if t.passed then "passed" else "failed")),
   ("input", JField.s t.input),
   ("expected_output", JField.s t.expected_output),
   ("actual_output", JField.s t.actual_output),
   ("execution_time_ms", JField.n t.execution_time_ms),
   ("error", match t.error with | some e => JField.s e | none => JField.nullF)]

/-- Modelled from the spec: the candidate-facing rendering of one hidden
test result (spec sections 3 and 6): only `id`, `status` and
`execution_time_ms`. -/
def encodeHiddenResult (t : TestCaseExec) : List (String × JField) :=
  [("id", JField.s t.id),
   ("status", JField.s (if t.passed then "passed" else "failed")),
   ("execution_time_ms", JField.n t.execution_time_ms)]

/-- The `summary` object of the run response (spec section 6). -/
structure RunSummary where
  visible_passed : Nat
  visible_failed : Nat
  hidden_passed : Nat
  hidden_failed : Nat
deriving DecidableEq, Repr

/-- Modelled from the spec: the pass/fail counts of the run response's
`summary` (spec section 6). -/
def buildSummary (visible hidden : List TestCaseExec) : RunSummary :=
  ⟨(visible.filter (fun t => t.passed)).length,
   (visible.filter (fun t => !t.passed)).length,
   (hidden.filter (fun t => t.passed)).length,
   (hidden.filter (fun t => !t.passed)).length⟩

/-- The candidate-facing run response: rendered visible results, rendered
hidden results, and the summary (spec section 6). -/
structure RunResponse where
  visible_results : List (List (String × JField))
  hidden_results : List (List (String × JField))
  summary : RunSummary
deriving DecidableEq, Repr

/-- Modelled from the spec: the test runner's construction of the
candidate-facing response from the internally retained full results (spec
sections 4.5 and 6); the test runner's code is missing from the
repository. -/
def buildRunResponse (visible hidden : List TestCaseExec) : RunResponse :=
  ⟨visible.map encodeVisibleResult,
   hidden.map encodeHiddenResult,
   buildSummary visible hidden⟩

/-! ## Spec-modelled engine fallback selector -/

/-- The execution status taxonomy of the spec (sections 3 and 7). -/
inductive ExecStatus where
  | Success | RuntimeError | Timeout | MemoryExceeded | CompileError
  | InternalError | EngineUnavailable
deriving DecidableEq, Repr

/-- Modelled from the spec: `ExecutionResult` of the sandbox core (spec
section 3); the sandbox's code is missing from the repository. -/
structure EngineResult where
  status : ExecStatus
  stdout : String
  stderr : String
  exit_code : Int
  duration_ms : Nat
deriving DecidableEq, Repr

/-- The two isolation backends of the fallback selector (spec
section 4.4). -/
inductive EngineHandle where
  | primary | fallback
deriving DecidableEq, Repr

/-- Modelled from the spec: the world the fallback selector probes —
reachability and probe latency of each backend, the probe deadline, and
what each backend would return for a request (spec sections 4.4 and 5);
the selector's code is missing from the repository. -/
structure EngineWorld where
  primaryUp : Bool
  fallbackUp : Bool
  primaryProbeLatency : Nat
  fallbackProbeLatency : Nat
  probeTimeout : Nat
  primaryRun : RunRequest → EngineResult
  fallbackRun : RunRequest → EngineResult

/-- Modelled from the spec: `probe() -> EngineHandle` (spec section 4.4) —
attempt the primary first, fall back on failure, respect the probe
deadline; returns the selected handle (if any) together with the elapsed
probe time. -/
def probeSelect (w : EngineWorld) : Option EngineHandle × Nat :=
  if w.primaryUp = true ∧ w.primaryProbeLatency ≤ w.probeTimeout then
    (some EngineHandle.primary, w.primaryProbeLatency)
  else
    let spent := min w.primaryProbeLatency w.probeTimeout
    if w.fallbackUp = true ∧ spent + w.fallbackProbeLatency ≤ w.probeTimeout then
      (some EngineHandle.fallback, spent + w.fallbackProbeLatency)
    else
      (none, w.probeTimeout)

/-- Modelled from the spec: `execute` through the fallback selector (spec
section 4.4) — run on the probed backend, or fail fast with
`EngineUnavailable` when neither is reachable; returns the outcome together
with the elapsed time. -/
def sandboxExecute (w : EngineWorld) (req : RunRequest) :
    Except ExecStatus EngineResult × Nat :=
  match probeSelect w with
  | (some EngineHandle.primary, t) =>
      (Except.ok (w.primaryRun req), t + (w.primaryRun req).duration_ms)
  | (some EngineHandle.fallback, t) =>
      (Except.ok (w.fallbackRun req), t + (w.fallbackRun req).duration_ms)
  | (none, t) => (Except.error ExecStatus.EngineUnavailable, t)

/-! ## Example values used by witnesses and counterexamples -/

/-- Five visible test results, all passed (the spec's 5/5 scenario). -/
def exVisibleResults : List TestCaseExec :=
  [⟨"test_1", true, "1", "1", "1", none, 3⟩,
   ⟨"test_2", true, "2", "4", "4", none, 3⟩,
   ⟨"test_3", true, "3", "9", "9", none, 4⟩,
   ⟨"test_4", true, "4", "16", "16", none, 2⟩,
   ⟨"test_5", true, "5", "25", "25", none, 5⟩]

/-- Five hidden test results of which two failed (the spec's 5/5
scenario). -/
def exHiddenResults : List TestCaseExec :=
  [⟨"hidden_1", true, "0", "0", "0", none, 2⟩,
   ⟨"hidden_2", true, "6", "36", "36", none, 2⟩,
   ⟨"hidden_3", false, "7", "49", "48", none, 3⟩,
   ⟨"hidden_4", true, "8", "64", "64", none, 2⟩,
   ⟨"hidden_5", false, "9", "81", "80", none, 3⟩]

/-- A concrete decoded value of the `runTests` response type. -/
def sampleRunTestsResult : ExecutionResult :=
  ⟨true, none, none, 12, 45, some [⟨1, true, "5", "120", "120", none, 10⟩]⟩

/-- A concrete execution result holding one failed test, as rendered by the
test terminal. -/
def sampleTerminalResult : ExecutionResult :=
  ⟨false, none, none, 0, 0, some [⟨1, false, "5", "120", "125", none, 10⟩]⟩

/-! ## Theorems for the claims -/

/-- C1: every hidden test result exposed to the candidate-facing caller
carries exactly the keys `id`, `status` and `execution_time_ms` — never
`input`, `expected_output` or `actual_output` — and on the spec's 5-visible
/ 5-hidden scenario with two hidden failures the summary counts are
`⟨5, 0, 3, 2⟩`. -/
theorem C1_hidden_results_redacted :
    (∀ (visible hidden : List TestCaseExec) (fields : List (String × JField)),
      fields ∈ (buildRunResponse visible hidden).hidden_results →
        fields.map Prod.fst = ["id", "status", "execution_time_ms"] ∧
        "input" ∉ fields.map Prod.fst ∧
        "expected_output" ∉ fields.map Prod.fst ∧
        "actual_output" ∉ fields.map Prod.fst) ∧
    buildSummary exVisibleResults exHiddenResults = ⟨5, 0, 3, 2⟩ := by
  constructor
  · intro visible hidden fields hmem
    simp only [buildRunResponse, List.mem_map] at hmem
    obtain ⟨t, -, rfl⟩ := hmem
    refine ⟨rfl, ?_, ?_, ?_⟩ <;> simp [encodeHiddenResult]
  · decide

/-- Witness for C1 at a concrete hidden result of the example scenario. -/
theorem C1_hidden_results_redacted_witness :
    (encodeHiddenResult ⟨"hidden_3", false, "7", "49", "48", none, 3⟩).map Prod.fst
        = ["id", "status", "execution_time_ms"] ∧
      "input" ∉ (encodeHiddenResult ⟨"hidden_3", false, "7", "49", "48", none, 3⟩).map Prod.fst ∧
      "expected_output" ∉ (encodeHiddenResult ⟨"hidden_3", false, "7", "49", "48", none, 3⟩).map Prod.fst ∧
      "actual_output" ∉ (encodeHiddenResult ⟨"hidden_3", false, "7", "49", "48", none, 3⟩).map Prod.fst :=
  C1_hidden_results_redacted.1 exVisibleResults exHiddenResults
    (encodeHiddenResult ⟨"hidden_3", false, "7", "49", "48", none, 3⟩)
    (by simp [buildRunResponse, exHiddenResults])

/-- C2: every run-endpoint request body carries the wall-clock timeout and
the memory ceiling — `ResourceLimits` is a mandatory component of every
`RunRequest`, and its two fields are always rendered into the body. -/
theorem C2_limits_always_present (r : RunRequest) :
    ("timeout_seconds", JField.n r.limits.timeout_seconds) ∈ encodeRunRequest r ∧
    ("memory_limit_mb", JField.n r.limits.memory_limit_mb) ∈ encodeRunRequest r := by
  simp [encodeRunRequest]

/-- C4: when the run-tests HTTP response is not ok, the surfaced error is
the fixed message `Failed to run tests`, independent of the raw response
body; the hook then swallows the thrown error and returns null. -/
theorem C4_generic_error_message :
    ∀ (resp : HttpResponse) (itv : Option InterviewState) (task : Option Task)
      (st : LoadState) (e : String),
      (resp.ok = false → apiRunTests resp = Except.error "Failed to run tests") ∧
      (itv.isSome = true → task.isSome = true →
        (hookRunTests itv task (Except.error e) st).1 = none) := by
  intro resp itv task st e
  constructor
  · intro hok
    simp [apiRunTests, hok]
  · intro hi ht
    cases itv with
    | none => simp at hi
    | some i =>
        cases task with
        | none => simp at ht
        | some t => rfl

/-- Witness for C4: a failed response carrying a raw stack trace in its body
still surfaces only the fixed message, and the hook returns null. -/
theorem C4_generic_error_message_witness :
    apiRunTests ⟨false, "Traceback (most recent call last): boom",
        ⟨false, none, none, 0, 0, none⟩⟩ = Except.error "Failed to run tests" ∧
      (hookRunTests (some ⟨"itv-1", "active", 1, 3, "backend", "python", "ru", "easy", "t0"⟩)
        (some ⟨"task-1", "Sum", "d", "algorithm", "easy", 15, none⟩)
        (Except.error "ECONNREFUSED") ⟨false, none⟩).1 = none :=
  ⟨(C4_generic_error_message
      ⟨false, "Traceback (most recent call last): boom", ⟨false, none, none, 0, 0, none⟩⟩
      (some ⟨"itv-1", "active", 1, 3, "backend", "python", "ru", "easy", "t0"⟩)
      (some ⟨"task-1", "Sum", "d", "algorithm", "easy", 15, none⟩)
      ⟨false, none⟩ "ECONNREFUSED").1 rfl,
   (C4_generic_error_message
      ⟨false, "Traceback (most recent call last): boom", ⟨false, none, none, 0, 0, none⟩⟩
      (some ⟨"itv-1", "active", 1, 3, "backend", "python", "ru", "easy", "t0"⟩)
      (some ⟨"task-1", "Sum", "d", "algorithm", "easy", 15, none⟩)
      ⟨false, none⟩ "ECONNREFUSED").2 rfl rfl⟩

/-- C5: with the primary backend unreachable, `execute` still returns a
final result via the fallback once the fallback's probe fits the deadline;
with neither backend reachable it fails fast with `EngineUnavailable`
within the probe timeout. -/
theorem C5_fallback_and_fail_fast :
    ∀ (w : EngineWorld) (req : RunRequest),
      (w.primaryUp = false → w.fallbackUp = true →
        min w.primaryProbeLatency w.probeTimeout + w.fallbackProbeLatency
            ≤ w.probeTimeout →
        (sandboxExecute w req).1 = Except.ok (w.fallbackRun req)) ∧
      (w.primaryUp = false → w.fallbackUp = false →
        (sandboxExecute w req).1 = Except.error ExecStatus.EngineUnavailable ∧
        (sandboxExecute w req).2 ≤ w.probeTimeout) := by
  intro w req
  constructor
  · intro hp hf hfit
    simp [sandboxExecute, probeSelect, hp, hf, hfit]
  · intro hp hf
    simp [sandboxExecute, probeSelect, hp, hf]

/-- Witness for C5 at concrete worlds: primary down with a reachable
fallback, and both backends down. -/
theorem C5_fallback_and_fail_fast_witness :
    (sandboxExecute
        ⟨false, true, 3, 2, 10, fun _ => ⟨ExecStatus.InternalError, "", "", 1, 0⟩,
          fun _ => ⟨ExecStatus.Success, "1\n", "", 0, 12⟩⟩
        ⟨"python", "print(1)", ⟨[], []⟩, ⟨5, 256⟩⟩).1
        = Except.ok ⟨ExecStatus.Success, "1\n", "", 0, 12⟩ ∧
      (sandboxExecute
        ⟨false, false, 3, 2, 10, fun _ => ⟨ExecStatus.InternalError, "", "", 1, 0⟩,
          fun _ => ⟨ExecStatus.InternalError, "", "", 1, 0⟩⟩
        ⟨"python", "print(1)", ⟨[], []⟩, ⟨5, 256⟩⟩).1
        = Except.error ExecStatus.EngineUnavailable ∧
      (sandboxExecute
        ⟨false, false, 3, 2, 10, fun _ => ⟨ExecStatus.InternalError, "", "", 1, 0⟩,
          fun _ => ⟨ExecStatus.InternalError, "", "", 1, 0⟩⟩
        ⟨"python", "print(1)", ⟨[], []⟩, ⟨5, 256⟩⟩).2 ≤ 10 :=
  ⟨(C5_fallback_and_fail_fast
      ⟨false, true, 3, 2, 10, fun _ => ⟨ExecStatus.InternalError, "", "", 1, 0⟩,
        fun _ => ⟨ExecStatus.Success, "1\n", "", 0, 12⟩⟩
      ⟨"python", "print(1)", ⟨[], []⟩, ⟨5, 256⟩⟩).1 rfl rfl (by decide),
   (C5_fallback_and_fail_fast
      ⟨false, false, 3, 2, 10, fun _ => ⟨ExecStatus.InternalError, "", "", 1, 0⟩,
        fun _ => ⟨ExecStatus.InternalError, "", "", 1, 0⟩⟩
      ⟨"python", "print(1)", ⟨[], []⟩, ⟨5, 256⟩⟩).2 rfl rfl⟩

/-- C7: the supported-language set is exactly the closed three-value set
`python`, `javascript`, `cpp`, and the default-starter-code switch handles
exactly this set — it produces a non-default result precisely on these
three values. -/
theorem C7_supported_languages :
    programmingLanguages = ["python", "javascript", "cpp"] ∧
    programmingLanguages.length = 3 ∧
    ∀ s : String, getDefaultCode s ≠ "" ↔ s ∈ programmingLanguages := by
  refine ⟨rfl, rfl, fun s => ?_⟩
  unfold getDefaultCode programmingLanguages
  split_ifs with h1 h2 h3 <;> subst_vars <;> simp_all

/-- The detail lines of the terminal: `Input:`, `Expected:`, `Actual:` and
`Error:`. -/
def isDetailLine : TermLine → Bool
  | TermLine.inputLine _ _ => true
  | TermLine.expectedLine _ _ => true
  | TermLine.actualLine _ _ => true
  | TermLine.errorLine _ _ => true
  | _ => false

/-- Membership in a conditional singleton list forces the condition and the
equality. -/
theorem mem_ite_singleton {α : Type} {l a : α} {c : Prop} [Decidable c]
    (h : l ∈ (if c then [a] else [])) : c ∧ l = a := by
  by_cases hc : c
  · rw [if_pos hc] at h
    simp only [List.mem_singleton] at h
    exact ⟨hc, h⟩
  · rw [if_neg hc] at h
    simp at h

/-- A detail line in the full terminal output must come from the
test-results block. -/
theorem detailLine_mem_build {r : ExecutionResult} {l : TermLine}
    (hd : isDetailLine l = true) (h : l ∈ buildTerminalOutput r) :
    ∃ ts, r.test_results = some ts ∧ ∃ t, t ∈ ts ∧ l ∈ renderTest t := by
  unfold buildTerminalOutput at h
  rcases List.mem_append.mp h with h | h
  · rcases List.mem_append.mp h with h | h
    · rcases List.mem_append.mp h with h | h
      · cases he : r.error with
        | none =>
            rw [he] at h
            exact absurd h (List.not_mem_nil l)
        | some e =>
            rw [he] at h
            obtain ⟨-, hEq⟩ := mem_ite_singleton
              (show l ∈ (if e ≠ "" then [TermLine.errorBanner e] else []) from h)
            subst hEq
            simp [isDetailLine] at hd
      · cases ho : r.output with
        | none =>
            rw [ho] at h
            exact absurd h (List.not_mem_nil l)
        | some o =>
            rw [ho] at h
            obtain ⟨-, hEq⟩ := mem_ite_singleton
              (show l ∈ (if o ≠ "" then [TermLine.rawOutput o] else []) from h)
            subst hEq
            simp [isDetailLine] at hd
    · cases htr : r.test_results with
      | none =>
          rw [htr] at h
          exact absurd h (List.not_mem_nil l)
      | some ts =>
          rw [htr] at h
          replace h : l ∈ (if 0 < ts.length then
              TermLine.testsHeader :: (ts.map renderTest).flatten else []) := h
          by_cases hlen : 0 < ts.length
          · rw [if_pos hlen] at h
            rcases List.mem_cons.mp h with hEq | h
            · subst hEq
              simp [isDetailLine] at hd
            · obtain ⟨L, hL, hl⟩ := List.mem_flatten.mp h
              obtain ⟨t, ht, rfl⟩ := List.mem_map.mp hL
              exact ⟨ts, rfl, t, ht, hl⟩
          · rw [if_neg hlen] at h
            exact absurd h (List.not_mem_nil l)
  · simp only [List.mem_singleton] at h
    subst h
    simp [isDetailLine] at hd

/-- The lines a test contributes when it passed: PASSED plus, when the time
is non-zero, the time line. -/
theorem renderTest_passed (t : TestResult) (hp : t.passed = true) :
    renderTest t = TermLine.passedLine t.test_number ::
      (if t.execution_time_ms ≠ 0 then
        [TermLine.timeLine t.test_number t.execution_time_ms] else []) := by
  simp [renderTest, hp]

/-- A detail line in a test's contribution forces the test to have failed
with the corresponding field non-empty. -/
theorem renderTest_detail (t : TestResult) (n : Nat) (s : String) :
    (TermLine.inputLine n s ∈ renderTest t →
      t.test_number = n ∧ t.passed = false ∧ t.input = s ∧ s ≠ "") ∧
    (TermLine.expectedLine n s ∈ renderTest t →
      t.test_number = n ∧ t.passed = false ∧ t.expected = s ∧ s ≠ "") ∧
    (TermLine.actualLine n s ∈ renderTest t →
      t.test_number = n ∧ t.passed = false ∧ t.actual = s ∧ s ≠ "") ∧
    (TermLine.errorLine n s ∈ renderTest t →
      t.test_number = n ∧ t.passed = false ∧ t.error = some s ∧ s ≠ "") := by
  refine ⟨?_, ?_, ?_, ?_⟩ <;> intro hmem <;>
    cases hp : t.passed <;> cases he : t.error <;>
      simp [renderTest, hp, he] at hmem <;> simp_all

/-- C8: the terminal text contains an `Input:`/`Expected:`/`Actual:`/
`Error:` detail line for a test case only if that case failed and the
corresponding field is non-empty; a passed test contributes only its PASSED
line plus, when its time is non-zero, its time line. -/
theorem C8_terminal_details_only_for_failures :
    ∀ (r : ExecutionResult) (n : Nat) (s : String),
      (TermLine.inputLine n s ∈ buildTerminalOutput r →
        ∃ ts, r.test_results = some ts ∧ ∃ t, t ∈ ts ∧
          t.test_number = n ∧ t.passed = false ∧ t.input = s ∧ s ≠ "") ∧
      (TermLine.expectedLine n s ∈ buildTerminalOutput r →
        ∃ ts, r.test_results = some ts ∧ ∃ t, t ∈ ts ∧
          t.test_number = n ∧ t.passed = false ∧ t.expected = s ∧ s ≠ "") ∧
      (TermLine.actualLine n s ∈ buildTerminalOutput r →
        ∃ ts, r.test_results = some ts ∧ ∃ t, t ∈ ts ∧
          t.test_number = n ∧ t.passed = false ∧ t.actual = s ∧ s ≠ "") ∧
      (TermLine.errorLine n s ∈ buildTerminalOutput r →
        ∃ ts, r.test_results = some ts ∧ ∃ t, t ∈ ts ∧
          t.test_number = n ∧ t.passed = false ∧ t.error = some s ∧ s ≠ "") ∧
      (∀ t : TestResult, t.passed = true →
        renderTest t = TermLine.passedLine t.test_number ::
          (if t.execution_time_ms ≠ 0 then
            [TermLine.timeLine t.test_number t.execution_time_ms] else [])) := by
  intro r n s
  refine ⟨?_, ?_, ?_, ?_, renderTest_passed⟩ <;> intro hmem
  · obtain ⟨ts, hts, t, ht, hl⟩ := detailLine_mem_build (l := TermLine.inputLine n s) rfl hmem
    obtain ⟨h1, h2, h3, h4⟩ := (renderTest_detail t n s).1 hl
    exact ⟨ts, hts, t, ht, h1, h2, h3, h4⟩
  · obtain ⟨ts, hts, t, ht, hl⟩ := detailLine_mem_build (l := TermLine.expectedLine n s) rfl hmem
    obtain ⟨h1, h2, h3, h4⟩ := (renderTest_detail t n s).2.1 hl
    exact ⟨ts, hts, t, ht, h1, h2, h3, h4⟩
  · obtain ⟨ts, hts, t, ht, hl⟩ := detailLine_mem_build (l := TermLine.actualLine n s) rfl hmem
    obtain ⟨h1, h2, h3, h4⟩ := (renderTest_detail t n s).2.2.1 hl
    exact ⟨ts, hts, t, ht, h1, h2, h3, h4⟩
  · obtain ⟨ts, hts, t, ht, hl⟩ := detailLine_mem_build (l := TermLine.errorLine n s) rfl hmem
    obtain ⟨h1, h2, h3, h4⟩ := (renderTest_detail t n s).2.2.2 hl
    exact ⟨ts, hts, t, ht, h1, h2, h3, h4⟩

/-- Witness for C8: the sample result's failing test puts its `Input:`
line in the terminal, and the theorem traces it back to that failed test. -/
theorem C8_terminal_details_only_for_failures_witness :
    ∃ ts, sampleTerminalResult.test_results = some ts ∧ ∃ t, t ∈ ts ∧
      t.test_number = 1 ∧ t.passed = false ∧ t.input = "5" ∧ "5" ≠ "" :=
  (C8_terminal_details_only_for_failures sampleTerminalResult 1 "5").1 (by decide)

/-- C3 counterexample: a concrete value of the type returned by the
test-run operation `apiClient.runTests` renders with keys
`success, execution_time_ms, memory_used_mb, test_results` only — it
contains no visible/hidden split and no summary of counts. -/
theorem C3_counterexample :
    (encodeExecutionResult sampleRunTestsResult).map Prod.fst
        = ["success", "execution_time_ms", "memory_used_mb", "test_results"] ∧
      "summary" ∉ (encodeExecutionResult sampleRunTestsResult).map Prod.fst ∧
      "hidden_summary" ∉ (encodeExecutionResult sampleRunTestsResult).map Prod.fst ∧
      "visible_results" ∉ (encodeExecutionResult sampleRunTestsResult).map Prod.fst ∧
      "visible" ∉ (encodeExecutionResult sampleRunTestsResult).map Prod.fst ∧
      "hidden" ∉ (encodeExecutionResult sampleRunTestsResult).map Prod.fst := by
  decide

/-- C3 amended: the value returned by the test-run operation is a flat
`ExecutionResult` — a success flag, optional output/error strings, timing
and memory numbers, and an optional single flat list of per-test results;
its rendered keys always lie in that six-key set, with no visible/hidden
split and no count summary. -/
theorem C3_flat_execution_result :
    ∀ r : ExecutionResult,
      "success" ∈ (encodeExecutionResult r).map Prod.fst ∧
      "execution_time_ms" ∈ (encodeExecutionResult r).map Prod.fst ∧
      "memory_used_mb" ∈ (encodeExecutionResult r).map Prod.fst ∧
      ∀ k, k ∈ (encodeExecutionResult r).map Prod.fst →
        k ∈ ["success", "output", "error", "execution_time_ms",
             "memory_used_mb", "test_results"] := by
  intro r
  refine ⟨?_, ?_, ?_, ?_⟩
  · simp [encodeExecutionResult]
  · simp [encodeExecutionResult]
  · simp [encodeExecutionResult]
  · intro k hk
    cases ho : r.output <;> cases he : r.error <;> cases ht : r.test_results <;>
      simp [encodeExecutionResult, ho, he, ht] at hk <;> simp_all <;> tauto

/-- Witness for C3 amended at the sample value. -/
theorem C3_flat_execution_result_witness :
    "success" ∈ (encodeExecutionResult sampleRunTestsResult).map Prod.fst ∧
      "success" ∈ ["success", "output", "error", "execution_time_ms",
                   "memory_used_mb", "test_results"] :=
  ⟨(C3_flat_execution_result sampleRunTestsResult).1,
   (C3_flat_execution_result sampleRunTestsResult).2.2.2 "success"
     (C3_flat_execution_result sampleRunTestsResult).1⟩

/-- C6 counterexample: with a run in flight but no `onStop` callback
supplied — and no component in the repository supplies one — the terminal
renders no stop control, and the run-tests request body carries only
`interview_id`, `task_id`, `code`, `language`: the caller has no operation
cancelling an in-flight test run. -/
theorem C6_counterexample :
    stopControlShown true none = false ∧
    (runTestsRequestBody "itv-1" "task-1" "print(1)" "python").map Prod.fst
      = ["interview_id", "task_id", "code", "language"] := by
  decide

/-- C6 amended: the terminal renders its Stop control exactly when a run is
in flight and an optional `onStop` callback was supplied, and the run-tests
request itself carries no cancellation handle — only the four identifying
fields. -/
theorem C6_stop_control_condition :
    ∀ (isRunning : Bool) (onStop : Option Unit) (i t c l : String),
      (stopControlShown isRunning onStop = true ↔
        isRunning = true ∧ onStop.isSome = true) ∧
      (runTestsRequestBody i t c l).map Prod.fst
        = ["interview_id", "task_id", "code", "language"] := by
  intro isRunning onStop i t c l
  exact ⟨by simp [stopControlShown], rfl⟩

/-- C9: the hook's `runTests` is total — every outcome yields either the
api's `ExecutionResult` or null, never a propagated exception — and the
loading state ends false/null on every exit path (the early-return path
leaves an idle loading state idle, every other path resets it). -/
theorem C9_runTests_total_and_resets :
    ∀ (itv : Option InterviewState) (task : Option Task)
      (api : Except String ExecutionResult) (st : LoadState),
      ((hookRunTests itv task api st).1 = none ∨
        ∃ r, api = Except.ok r ∧ (hookRunTests itv task api st).1 = some r) ∧
      (itv.isSome = true → task.isSome = true →
        (hookRunTests itv task api st).2 = ⟨false, none⟩) ∧
      (st.isLoading = false → st.loadingAction = none →
        (hookRunTests itv task api st).2.isLoading = false ∧
        (hookRunTests itv task api st).2.loadingAction = none) := by
  intro itv task api st
  cases itv <;> cases task <;> cases api <;>
    simp_all [hookRunTests]

/-- Witness for C9: a concrete successful call resets the loading state and
hands back the api result. -/
theorem C9_runTests_total_and_resets_witness :
    ((hookRunTests (some ⟨"itv-1", "active", 1, 3, "backend", "python", "ru", "easy", "t0"⟩)
        (some ⟨"task-1", "Sum", "d", "algorithm", "easy", 15, none⟩)
        (Except.ok sampleRunTestsResult) ⟨true, some LoadingAction.tests⟩).1 = none ∨
      ∃ r, Except.ok (ε := String) sampleRunTestsResult = Except.ok r ∧
        (hookRunTests (some ⟨"itv-1", "active", 1, 3, "backend", "python", "ru", "easy", "t0"⟩)
          (some ⟨"task-1", "Sum", "d", "algorithm", "easy", 15, none⟩)
          (Except.ok sampleRunTestsResult) ⟨true, some LoadingAction.tests⟩).1 = some r) ∧
      (hookRunTests (some ⟨"itv-1", "active", 1, 3, "backend", "python", "ru", "easy", "t0"⟩)
        (some ⟨"task-1", "Sum", "d", "algorithm", "easy", 15, none⟩)
        (Except.ok sampleRunTestsResult) ⟨true, some LoadingAction.tests⟩).2 = ⟨false, none⟩ :=
  ⟨(C9_runTests_total_and_resets
      (some ⟨"itv-1", "active", 1, 3, "backend", "python", "ru", "easy", "t0"⟩)
      (some ⟨"task-1", "Sum", "d", "algorithm", "easy", 15, none⟩)
      (Except.ok sampleRunTestsResult) ⟨true, some LoadingAction.tests⟩).1,
   (C9_runTests_total_and_resets
      (some ⟨"itv-1", "active", 1, 3, "backend", "python", "ru", "easy", "t0"⟩)
      (some ⟨"task-1", "Sum", "d", "algorithm", "easy", 15, none⟩)
      (Except.ok sampleRunTestsResult) ⟨true, some LoadingAction.tests⟩).2.1 rfl rfl⟩

/-- C10: the task counter starts at 1 and `nextTask` preserves
`1 ≤ taskNumber ≤ total_tasks`: it increments the counter only when the
incremented value fits the bound and a valid task was received, and on
every null-returning path it leaves `taskNumber` and `currentTask`
unchanged. -/
theorem C10_task_counter_invariant :
    initialHookState.taskNumber = 1 ∧
    ∀ (st : HookState) (api : Except String Task) (itv : InterviewState),
      (hookNextTask st api).2.interview = st.interview ∧
      (st.interview = some itv → 1 ≤ st.taskNumber →
        st.taskNumber ≤ itv.total_tasks →
        1 ≤ (hookNextTask st api).2.taskNumber ∧
        (hookNextTask st api).2.taskNumber ≤ itv.total_tasks) ∧
      (∀ t, (hookNextTask st api).1 = some t → st.interview = some itv →
        (hookNextTask st api).2.taskNumber = st.taskNumber + 1 ∧
        st.taskNumber + 1 ≤ itv.total_tasks ∧
        taskIsValid t = true ∧ api = Except.ok t) ∧
      ((hookNextTask st api).1 = none →
        (hookNextTask st api).2.taskNumber = st.taskNumber ∧
        (hookNextTask st api).2.currentTask = st.currentTask) := by
  refine ⟨rfl, ?_⟩
  intro st api itv
  cases hI : st.interview with
  | none =>
      have hpair : hookNextTask st api = (none, st) := by
        simp [hookNextTask, hI]
      rw [hpair]
      exact ⟨hI, fun _ h1 h2 => ⟨h1, h2⟩,
        fun t ht => absurd ht (by simp), fun _ => ⟨rfl, rfl⟩⟩
  | some i =>
      by_cases hn : st.taskNumber + 1 > i.total_tasks
      · have hpair : hookNextTask st api = (none, st) := by
          simp [hookNextTask, hI, hn]
        rw [hpair]
        exact ⟨hI, fun _ h1 h2 => ⟨h1, h2⟩,
          fun t ht => absurd ht (by simp), fun _ => ⟨rfl, rfl⟩⟩
      · cases api with
        | ok task =>
            by_cases hv : taskIsValid task = true
            · have hpair : hookNextTask st (Except.ok task) =
                  (some task,
                   { st with
                       currentTask := some task
                       taskNumber := st.taskNumber + 1
                       code := starterOrDefault task i.language
                       load := ⟨false, none⟩ }) := by
                simp [hookNextTask, hI, hn, hv]
              rw [hpair]
              refine ⟨hI, ?_, ?_, ?_⟩
              · intro hEq h1 h2
                injection hEq with hEq
                subst hEq
                simp only
                omega
              · intro t ht hEq
                injection hEq with hEq
                subst hEq
                injection ht with ht
                subst ht
                exact ⟨rfl, by omega, hv, rfl⟩
              · intro h
                exact absurd h (by simp)
            · have hpair : hookNextTask st (Except.ok task) =
                  (none, { st with code := getDefaultCode i.language,
                                   load := ⟨false, none⟩ }) := by
                simp [hookNextTask, hI, hn, hv]
              rw [hpair]
              exact ⟨hI, fun _ h1 h2 => ⟨h1, h2⟩,
                fun t ht => absurd ht (by simp), fun _ => ⟨rfl, rfl⟩⟩
        | error e =>
            have hpair : hookNextTask st (Except.error e) =
                (none, { st with code := getDefaultCode i.language,
                                 load := ⟨false, none⟩ }) := by
              simp [hookNextTask, hI, hn]
            rw [hpair]
            exact ⟨hI, fun _ h1 h2 => ⟨h1, h2⟩,
              fun t ht => absurd ht (by simp), fun _ => ⟨rfl, rfl⟩⟩

/-- Witness for C10: a concrete successful `nextTask` call inside the bound
increments the counter from 1 to 2 of 3. -/
theorem C10_task_counter_invariant_witness :
    initialHookState.taskNumber = 1 ∧
      1 ≤ (hookNextTask
        ⟨some ⟨"itv-1", "active", 1, 3, "backend", "python", "ru", "easy", "t0"⟩,
          none, 1, "", [], ⟨true, some LoadingAction.nextTask⟩⟩
        (Except.ok ⟨"task-2", "Reverse", "d", "algorithm", "easy", 15, none⟩)).2.taskNumber ∧
      (hookNextTask
        ⟨some ⟨"itv-1", "active", 1, 3, "backend", "python", "ru", "easy", "t0"⟩,
          none, 1, "", [], ⟨true, some LoadingAction.nextTask⟩⟩
        (Except.ok ⟨"task-2", "Reverse", "d", "algorithm", "easy", 15, none⟩)).2.taskNumber ≤ 3 ∧
      (hookNextTask
        ⟨some ⟨"itv-1", "active", 1, 3, "backend", "python", "ru", "easy", "t0"⟩,
          none, 1, "", [], ⟨true, some LoadingAction.nextTask⟩⟩
        (Except.ok ⟨"task-2", "Reverse", "d", "algorithm", "easy", 15, none⟩)).2.taskNumber = 2 :=
  ⟨C10_task_counter_invariant.1,
   ((C10_task_counter_invariant.2
      ⟨some ⟨"itv-1", "active", 1, 3, "backend", "python", "ru", "easy", "t0"⟩,
        none, 1, "", [], ⟨true, some LoadingAction.nextTask⟩⟩
      (Except.ok ⟨"task-2", "Reverse", "d", "algorithm", "easy", 15, none⟩)
      ⟨"itv-1", "active", 1, 3, "backend", "python", "ru", "easy", "t0"⟩).2.1
      rfl (by decide) (by decide)).1,
   ((C10_task_counter_invariant.2
      ⟨some ⟨"itv-1", "active", 1, 3, "backend", "python", "ru", "easy", "t0"⟩,
        none, 1, "", [], ⟨true, some LoadingAction.nextTask⟩⟩
      (Except.ok ⟨"task-2", "Reverse", "d", "algorithm", "easy", 15, none⟩)
      ⟨"itv-1", "active", 1, 3, "backend", "python", "ru", "easy", "t0"⟩).2.1
      rfl (by decide) (by decide)).2,
   ((C10_task_counter_invariant.2
      ⟨some ⟨"itv-1", "active", 1, 3, "backend", "python", "ru", "easy", "t0"⟩,
        none, 1, "", [], ⟨true, some LoadingAction.nextTask⟩⟩
      (Except.ok ⟨"task-2", "Reverse", "d", "algorithm", "easy", 15, none⟩)
      ⟨"itv-1", "active", 1, 3, "backend", "python", "ru", "easy", "t0"⟩).2.2.1
      ⟨"task-2", "Reverse", "d", "algorithm", "easy", 15, none⟩ (by decide) rfl).1⟩

end VibeCode
